import Mathlib

/-! Shallow embedding of the product-classification engine in
src/categorize_products.py.

Modelling conventions for the Python source:
- Optional / missing cell values are modelled as the empty string "".  Python
  None and "" are both falsy, and every access to an optional field in the
  source goes through truthiness tests (`if dept and group`, `x or default`)
  or containment tests on which the two coincide.
- `str.lower()` is modelled as `pyLower`, an ASCII case fold applied to every
  character (the rule keywords are Hebrew, on which lowering is the identity).
- `str.strip()` is modelled as `pyStrip`, dropping leading and trailing
  whitespace characters.
- The Python substring test `a in b` is modelled by `strHasSub b a`.
- `str.split()` (split on whitespace runs, no empty tokens) is `wsTokens`.
- A Python `set` of tuples is modelled as a duplicate-free list (`setAdd`
  inserts only when absent); `sorted` on tuples is `List.mergeSort` by the
  lexicographic order on the four string components.
-/

namespace Categorize

/-- ASCII case fold of every character; models Python str.lower() for the
strings appearing in this program (Hebrew characters are unaffected). -/
def pyLower (s : String) : String :=
  String.mk (s.data.map Char.toLower)

/-- Drop leading and trailing whitespace; models Python str.strip(). -/
def pyStrip (s : String) : String :=
  String.mk (((s.data.dropWhile Char.isWhitespace).reverse.dropWhile Char.isWhitespace).reverse)

/-- charsStartWith sub l is true when l starts with sub. -/
def charsStartWith : List Char → List Char → Bool
  | [], _ => true
  | _ :: _, [] => false
  | n :: ns, h :: hs => n == h && charsStartWith ns hs

/-- hasSubAux sub l is true when sub occurs contiguously inside l. -/
def hasSubAux (sub : List Char) : List Char → Bool
  | [] => charsStartWith sub []
  | c :: cs => charsStartWith sub (c :: cs) || hasSubAux sub cs

/-- strHasSub hay needle models the Python test `needle in hay`. -/
def strHasSub (hay needle : String) : Bool :=
  hasSubAux needle.data hay.data

/-- Accumulator-style worker for `wsTokens`. -/
def wsTokensAux (cur : List Char) : List Char → List String
  | [] => if cur.isEmpty then [] else [String.mk cur.reverse]
  | c :: cs =>
    if c.isWhitespace then
      if cur.isEmpty then wsTokensAux [] cs
      else String.mk cur.reverse :: wsTokensAux [] cs
    else wsTokensAux (c :: cur) cs

/-- wsTokens models Python str.split(): split on runs of whitespace,
producing no empty tokens. -/
def wsTokens (s : String) : List String :=
  wsTokensAux [] s.data

/-- Taxonomy row as loaded by load_taxonomy (all nine spreadsheet columns but
the usage count; missing cells are ""). -/
structure TaxonomyEntry where
  domain_id : String
  domain_name : String
  dept_id : String
  dept_name : String
  grp_id : String
  grp_name : String
  sub_id : String
  sub_name : String

deriving instance DecidableEq for TaxonomyEntry

/-- Product row (8 ordered spreadsheet columns; missing cells are ""). -/
structure Product where
  item_id : String
  item_name : String
  domain : String
  dept : String
  group : String
  subgroup : String
  supplier_id : String
  supplier_name : String

deriving instance DecidableEq for Product

/-- Result dict appended by classify_products for every input row. -/
structure ClassificationResult where
  item_id : String
  item_name : String
  domain : String
  dept : String
  group : String
  subgroup : String
  supplier_id : String
  supplier_name : String
  status : String

deriving instance DecidableEq for ClassificationResult

/-- Category tuple (domain, dept, group, subgroup). -/
abbrev Cat4 := String × String × String × String

/-- The ordered keyword rule table, transcribed verbatim from RULES in the
source (lines 79-225).  Order matters: more specific rules come first. -/
def RULES : List (List String × Cat4) := [
  (["מגילת אסתר", "מגילות אסתר"],
   ("NF", "חגים", "פורים", "מגילות אסתר")),
  (["תחפושת", "מסכה"],
   ("NF", "חגים", "פורים", "תחפושות ואביזרים")),
  (["משלוח מנות", "שקית פורים", "קופסת פורים"],
   ("NF", "חגים", "פורים", "אביזרים למשלוחי מנות")),
  (["פורים"],
   ("NF", "חגים", "פורים", "אביזרים למשלוחי מנות")),
  (["סביבון", "חנוכיה", "חנוכה"],
   ("NF", "חגים", "חנוכה", "סביבונים")),
  (["שקית חג", "שקיות חג"],
   ("NF", "חגים", "חגים כללי", "שקיות חג")),
  (["מדבקות לפסח", "פסח"],
   ("NF", "חגים", "חגים כללי", "שקיות חג")),
  (["ציצית", "טלית", "פתיל", "פתילים"],
   ("NF", "יודאיקה *חדש*", "ציצית וטלית *חדש*", "פתילים וציצית *חדש*")),
  (["מזוזה", "תפילין", "שופר"],
   ("NF", "יודאיקה *חדש*", "יודאיקה *חדש*", "יודאיקה *חדש*")),
  (["חזרת"],
   ("פירות וירקות", "ירקות", "שורשיים", "שורש")),
  (["לוף"],
   ("פירות וירקות", "ירקות", "ירקות לבישול", "ירקות לבישול *חדש*")),
  (["נענע", "כוסברה", "פטרוזיליה", "שמיר", "עשב"],
   ("פירות וירקות", "ירקות", "ירקות עלים", "פטרוזיליה כוסברה נענע שמיר")),
  (["בוטן", "בוטנים"],
   ("פירות וירקות", "פיצוחים", "בוטנים *חדש*", "בוטנים *חדש*")),
  (["שקד", "שקדים"],
   ("פירות וירקות", "פיצוחים", "שקדים *חדש*", "שקדים *חדש*")),
  (["פיסטוק"],
   ("פירות וירקות", "פיצוחים", "פיסטוק *חדש*", "פיסטוק *חדש*")),
  (["קשיו"],
   ("פירות וירקות", "פיצוחים", "קשיו *חדש*", "קשיו *חדש*")),
  (["פקאן"],
   ("פירות וירקות", "פיצוחים", "פקאן ומקדמיה *חדש*", "פקאן *חדש*")),
  (["מקדמיה"],
   ("פירות וירקות", "פיצוחים", "פקאן ומקדמיה *חדש*", "מקדמיה *חדש*")),
  (["בונדוק", "אגוז ברזיל", "אגוז"],
   ("פירות וירקות", "פיצוחים", "אגוזים *חדש*", "אגוזים *חדש*")),
  (["גרעיני חמניה", "גרעיני אבטיח", "גרעיני דלעת", "גרעינים"],
   ("פירות וירקות", "פיצוחים", "גרעינים *חדש*", "גרעינים *חדש*")),
  (["גרעינים דלעת", "גרעיני אבטיח זריפה"],
   ("פירות וירקות", "פיצוחים", "גרעינים *חדש*", "גרעינים *חדש*")),
  (["חומוס קלוי"],
   ("פירות וירקות", "פיצוחים", "חומוס ודגנים קלויים *חדש*", "חומוס קלוי *חדש*")),
  (["תירס מטוגן", "תירס"],
   ("פירות וירקות", "פיצוחים", "חטיפי פיצוחים *חדש*", "חטיפי תירס *חדש*")),
  (["קבוקים", "קרנצוס", "רביולי גריל"],
   ("פירות וירקות", "פיצוחים", "חטיפי פיצוחים *חדש*", "חטיפי פיצוחים *חדש*")),
  (["מעורב", "מארז פיצוחים"],
   ("פירות וירקות", "פיצוחים", "תערובות פיצוחים *חדש*", "תערובות פיצוחים *חדש*")),
  (["ממתק פרי"],
   ("פירות וירקות", "פיצוחים", "ממתקי פיצוחים *חדש*", "ממתקי פיצוחים *חדש*")),
  (["דג טרי", "פילה", "דניס", "לברק", "אמנון", "קרפיון", "סלמון", "טונה טרי",
    "אינטיאס", "ברי", "פרידה", "כוקיה", "מוסר", "בקלה", "פגריה"],
   ("מצוננים", "דגים טריים", "דגים טריים", "דגים שלמים טריים *חדש*")),
  (["דג ארוז", "פילה ארוז", "דג מנוקה"],
   ("מצוננים", "דגים טריים", "דגים טריים ארוזים", "דגים ארוזים *חדש*")),
  (["אנטריקוט", "סינטה", "פילה בקר", "אסאדו", "שפונדרה", "צלעות בקר",
    "כתף בקר", "שייטל", "לשון"],
   ("מצוננים", "קצביה בקר טרי", "חלקי בשר טרי", "נתחי בקר *חדש*")),
  (["בשר טחון", "קציצות"],
   ("מצוננים", "קצביה בקר טרי", "בשר טרי טחון", "בשר טחון *חדש*")),
  (["בשר ארוז"],
   ("מצוננים", "קצביה בקר טרי", "בשר טרי ארוז", "בשר ארוז *חדש*")),
  (["עוף שלם", "פרגית שלמה"],
   ("מצוננים", "קצביה עופות טריים", "עוף טרי שלם", "עוף שלם *חדש*")),
  (["חזה עוף", "שוק עוף", "כנף עוף", "ירך עוף", "חלקי עוף"],
   ("מצוננים", "קצביה עופות טריים", "חלקי עוף טרי", "חלקי עוף *חדש*")),
  (["הודו", "פרגית הודו", "חזה הודו", "שוק הודו"],
   ("מצוננים", "קצביה עופות טריים", "הודו טרי", "חלקי הודו *חדש*")),
  (["עוף טחון", "הודו טחון"],
   ("מצוננים", "קצביה עופות טריים", "עוף והודו טחון", "עוף טחון *חדש*")),
  (["מצעים", "סדין", "ציפית"],
   ("NF", "טקסטיל", "כלי מיטה", "מצעים")),
  (["שמיכה", "שמיכות"],
   ("NF", "טקסטיל", "כלי מיטה", "שמיכות קיץ")),
  (["כרית", "כריות"],
   ("NF", "טקסטיל", "כלי מיטה", "כריות")),
  (["מגבת", "מגבות"],
   ("NF", "טקסטיל", "מגבות", "מגבות גוף")),
  (["מפה", "מפות"],
   ("NF", "טקסטיל", "טקסטיל לבית", "מפות")),
  (["שטיח"],
   ("NF", "טקסטיל", "טקסטיל לבית", "שטיחים")),
  (["גרב", "גרביים"],
   ("NF", "טקסטיל", "ביגוד", "גרבי גברים")),
  (["צעיף"],
   ("NF", "טקסטיל", "אביזרי חורף", "צעיפים")),
  (["כפפות"],
   ("NF", "טקסטיל", "אביזרי חורף", "כפפות")),
  (["מטריה"],
   ("NF", "טקסטיל", "אביזרי חורף", "מטריות")),
  (["כבל", "תקע", "שקע"],
   ("NF", "מוצרי חשמל", "אביזרי חשמל ותאורה", "תקעים וכבלים")),
  (["נורה", "גוף תאורה"],
   ("NF", "מוצרי חשמל", "אביזרי חשמל ותאורה", "נורות וגופי תאורה")),
  (["סוללה", "סוללות"],
   ("NF", "מוצרי חשמל", "אלקטרוניקה", "סוללות")),
  (["אוזניות"],
   ("NF", "מוצרי חשמל", "אלקטרוניקה", "אוזניות")),
  (["מטען", "כבל טעינה"],
   ("NF", "מוצרי חשמל", "אלקטרוניקה", "מטענים וכבלים")),
  (["מברשת שיניים", "חוט דנטלי", "מגרד לשון", "קיסם"],
   ("פארם", "היגיינת הפה", "מברשות שיניים", "מברשות שיניים *חדש*")),
  (["פח", "פחים"],
   ("NF", "כלי בית", "מוצרים לבית", "פחים")),
  (["מעצור דלת"],
   ("NF", "כלי בית", "מוצרים לבית", "מוצרים לבית *חדש*")),
  (["פרלטור", "ברז", "צינור"],
   ("NF", "כלי בית", "מוצרים לאמבטיה", "ברזים וחסכמים")),
  (["בלון"],
   ("NF", "פנאי", "אביזרי מסיבה", "בלונים")),
  (["פנקס", "מחברת"],
   ("NF", "פנאי", "ציוד משרדי", "מחברות בלוקים ומעטפות")),
  (["מדבקות"],
   ("NF", "פנאי", "יצירה", "מדבקות")),
  (["צנצנת", "קוצץ ציפורניים"],
   ("NF", "כלי בית", "כלי אחסון", "מוצרי אחסון פלסטיק")),
  (["בצל מטוגן", "בצל פריך"],
   ("מזון יבש", "מוצרים לבישול ואפיה", "תבלינים", "תבלינים בשקית")),
  (["מיץ", "נקטר"],
   ("משקאות", "משקאות קלים", "נקטרים ומיצים", "מיצים *חדש*")),
  (["לוונדר", "צמח", "עציץ", "פרח"],
   ("NF", "גינה *חדש*", "צמחים *חדש*", "צמחים וזרעים *חדש*"))
]

/-- Sentinel substring in an item name marking a not-yet-real item
(source line 286). -/
def skipSentinel : String := "פריט חדש"

/-- Marker substring in a rule category flagging a category that must be
created in the taxonomy (source line 316). -/
def newCatMarker : String := "*חדש*"

/-- match_by_keyword (source lines 228-235): lower-case the name, scan RULES
in table order, inner keywords in listed order, return the first rule's
category whose keyword occurs in the lowered name. -/
def match_by_keyword (name : String) : Option Cat4 :=
  let name_lower := if name != "" then pyLower name else ""
  List.findSome? (fun r =>
    if r.1.any (fun kw => strHasSub name_lower (pyLower kw)) then some r.2 else none) RULES

/-- Candidate filter of find_subgroup (source lines 247-250): taxonomy rows
whose stripped dept and group names equal the product's, with a truthy
subgroup name. -/
def subgroup_candidates (dept_name group_name : String)
    (taxonomy : List TaxonomyEntry) : List TaxonomyEntry :=
  taxonomy.filter fun t =>
    pyStrip t.dept_name == dept_name && pyStrip t.grp_name == group_name && t.sub_name != ""

/-- Token test of find_subgroup (source lines 260-265): some whitespace token
of the candidate's lowered subgroup name, longer than 2 characters, occurs in
the lowered product name. -/
def tokenTest (product_name : String) (m : TaxonomyEntry) : Bool :=
  (wsTokens (pyLower m.sub_name)).any fun w =>
    w.length > 2 && strHasSub (pyLower product_name) w

/-- find_subgroup (source lines 242-269). -/
def find_subgroup (dept_name group_name product_name : String)
    (taxonomy : List TaxonomyEntry) : Option String :=
  let ms := subgroup_candidates dept_name group_name taxonomy
  match ms with
  | [] => none
  | [m] => some m.sub_name
  | m0 :: _ :: _ =>
    match ms.find? (tokenTest product_name) with
    | some m => some m.sub_name
    | none => some m0.sub_name

/-- Department-only candidate filter of the case-4 fallback (source lines
337-338): taxonomy rows whose stripped dept name equals the product's dept,
with a truthy subgroup name. -/
def dept_matches (dept : String) (taxonomy : List TaxonomyEntry) : List TaxonomyEntry :=
  taxonomy.filter fun t =>
    pyStrip t.dept_name == dept && t.sub_name != ""

/-- is_new check of the keyword branch (source line 316): the new-category
marker occurs in the space-join of the matched dept, group and subgroup. -/
def is_new (c : Cat4) : Bool :=
  strHasSub (String.intercalate " " [c.2.1, c.2.2.1, c.2.2.2]) newCatMarker

/-- One iteration of the classify_products loop, restricted to the result
dict it appends (source lines 282-363): skip check, subgroup resolution,
keyword match, department-only fallback, unknown. -/
def classifyRow (taxonomy : List TaxonomyEntry) (p : Product) : ClassificationResult :=
  if p.item_name != "" && strHasSub p.item_name skipSentinel then
    { item_id := p.item_id, item_name := p.item_name,
      domain := p.domain, dept := p.dept, group := p.group,
      subgroup := "פריט לא קיים - לדילוג",
      supplier_id := p.supplier_id, supplier_name := p.supplier_name,
      status := "skipped" }
  else
    match (if p.dept != "" && p.group != "" then
             find_subgroup p.dept p.group p.item_name taxonomy
           else none) with
    | some found_sub =>
      { item_id := p.item_id, item_name := p.item_name,
        domain := p.domain, dept := p.dept, group := p.group,
        subgroup := found_sub,
        supplier_id := p.supplier_id, supplier_name := p.supplier_name,
        status := "auto_subgroup" }
    | none =>
      match match_by_keyword p.item_name with
      | some (new_domain, new_dept, new_group, new_sub) =>
        { item_id := p.item_id, item_name := p.item_name,
          domain := new_domain, dept := new_dept,
          group := new_group, subgroup := new_sub,
          supplier_id := p.supplier_id, supplier_name := p.supplier_name,
          status := if is_new (new_domain, new_dept, new_group, new_sub)
                    then "new_category" else "auto_full" }
      | none =>
        match (if p.dept != "" && p.group == "" then dept_matches p.dept taxonomy
               else []) with
        | t :: _ =>
          { item_id := p.item_id, item_name := p.item_name,
            domain := if p.domain != "" then p.domain else t.domain_name,
            dept := p.dept,
            group := t.grp_name,
            subgroup := t.sub_name ++ " *לבדיקה*",
            supplier_id := p.supplier_id, supplier_name := p.supplier_name,
            status := "partial_auto" }
        | [] =>
          { item_id := p.item_id, item_name := p.item_name,
            domain := if p.domain != "" then p.domain else "לא ידוע",
            dept := if p.dept != "" then p.dept else "לבדיקה",
            group := if p.group != "" then p.group else "לבדיקה",
            subgroup := "לבדיקה ידנית",
            supplier_id := p.supplier_id, supplier_name := p.supplier_name,
            status := "unknown" }

/-- The stats dict of classify_products (source lines 278-279).  The source
initialises exactly these five counters; there is no counter keyed
"partial_auto". -/
structure Stats where
  auto_full : Nat
  auto_subgroup : Nat
  new_category : Nat
  skipped : Nat
  unknown : Nat

deriving instance DecidableEq for Stats

/-- Per-branch stats update of the classify_products loop, keyed by the
status string the branch writes (each branch writes a distinct status, so
this is exactly the source's inline updates).  Note the "partial_auto"
branch increments the auto_subgroup counter, mirroring source line 341. -/
def bump (st : Stats) (status : String) : Stats :=
  if status == "skipped" then { st with skipped := st.skipped + 1 }
  else if status == "auto_subgroup" then { st with auto_subgroup := st.auto_subgroup + 1 }
  else if status == "new_category" then { st with new_category := st.new_category + 1 }
  else if status == "auto_full" then { st with auto_full := st.auto_full + 1 }
  else if status == "partial_auto" then { st with auto_subgroup := st.auto_subgroup + 1 }
  else { st with unknown := st.unknown + 1 }

/-- Python set insertion on the new_categories set (source line 318),
modelled on a duplicate-free list. -/
def setAdd (s : List Cat4) (x : Cat4) : List Cat4 :=
  if x ∈ s then s else x :: s

/-- Mutable state threaded through the classify_products loop: the results
list, the stats dict and the new_categories set. -/
structure EngineState where
  results : List ClassificationResult
  stats : Stats
  new_categories : List Cat4

deriving instance DecidableEq for EngineState

/-- One full iteration of the classify_products loop (source lines 282-363):
append the row's result, update the matching counter and, in the
new-category branch, insert the resolved tuple into the set. -/
def step (taxonomy : List TaxonomyEntry) (st : EngineState) (p : Product) : EngineState :=
  let r := classifyRow taxonomy p
  { results := st.results ++ [r],
    stats := bump st.stats r.status,
    new_categories :=
      if r.status == "new_category" then
        setAdd st.new_categories (r.domain, r.dept, r.group, r.subgroup)
      else st.new_categories }

/-- Initial loop state (source lines 277-280). -/
def initialState : EngineState :=
  { results := [],
    stats := { auto_full := 0, auto_subgroup := 0, new_category := 0,
               skipped := 0, unknown := 0 },
    new_categories := [] }

/-- classify_products (source lines 276-365), over an in-memory product
list. -/
def classify_products (taxonomy : List TaxonomyEntry) (products : List Product) : EngineState :=
  products.foldl (step taxonomy) initialState

/-- Lexicographic key of a category tuple: Python compares tuples of strings
lexicographically, component by component. -/
def cat4Key (c : Cat4) : String ×ₗ (String ×ₗ (String ×ₗ String)) :=
  toLex (c.1, toLex (c.2.1, toLex (c.2.2.1, c.2.2.2)))

/-- Boolean tuple comparison used for sorting the new-category report. -/
def cat4Le (a b : Cat4) : Bool :=
  decide (cat4Key a ≤ cat4Key b)

/-- sorted(new_categories) as printed by main (source line 462). -/
def sorted_new_categories (s : List Cat4) : List Cat4 :=
  s.mergeSort cat4Le

/-- Entry equivalence for the amended C3 statement: two taxonomy rows agree
on the trimmed dept and group names and exactly on the subgroup name. -/
def trimEquivB (a b : TaxonomyEntry) : Bool :=
  pyStrip a.dept_name == pyStrip b.dept_name && pyStrip a.grp_name == pyStrip b.grp_name
    && a.sub_name == b.sub_name

/-- Pointwise boolean relation between two lists of taxonomy rows. -/
def listRelB (r : TaxonomyEntry → TaxonomyEntry → Bool) :
    List TaxonomyEntry → List TaxonomyEntry → Bool
  | [], [] => true
  | a :: as, b :: bs => r a b && listRelB r as bs
  | _, _ => false

/-- Shared lemma: the loop appends exactly the per-row result of each product,
in input order, after whatever the accumulator already holds. -/
lemma foldl_step_results (tax : List TaxonomyEntry) :
    ∀ (ps : List Product) (st : EngineState),
      (ps.foldl (step tax) st).results = st.results ++ ps.map (classifyRow tax) := by
  intro ps
  induction ps with
  | nil => intro st; simp
  | cons p ps ih =>
    intro st
    simp only [List.foldl_cons, List.map_cons, ih, step]
    simp

/-- Shared lemma: every per-row result bears one of the six status strings. -/
lemma classifyRow_status_cases (tax : List TaxonomyEntry) (p : Product) :
    (classifyRow tax p).status = "skipped" ∨ (classifyRow tax p).status = "auto_subgroup" ∨
    (classifyRow tax p).status = "new_category" ∨ (classifyRow tax p).status = "auto_full" ∨
    (classifyRow tax p).status = "partial_auto" ∨ (classifyRow tax p).status = "unknown" := by
  unfold classifyRow
  split
  · exact Or.inl rfl
  · split
    · exact Or.inr (Or.inl rfl)
    · split
      · split
        · exact Or.inr (Or.inr (Or.inl rfl))
        · exact Or.inr (Or.inr (Or.inr (Or.inl rfl)))
      · split
        · exact Or.inr (Or.inr (Or.inr (Or.inr (Or.inl rfl))))
        · exact Or.inr (Or.inr (Or.inr (Or.inr (Or.inr rfl))))

/-- Claim C1: for every input list of N product rows, classify_products
returns exactly N results, in the same order as the input rows (the i-th
result is the classification of the i-th row), and every result bears
exactly one of the six status strings; no row is dropped or duplicated. -/
theorem classify_products_row_preservation (taxonomy : List TaxonomyEntry)
    (products : List Product) :
    (classify_products taxonomy products).results = products.map (classifyRow taxonomy) ∧
    (classify_products taxonomy products).results.length = products.length ∧
    ∀ r ∈ (classify_products taxonomy products).results,
      r.status = "skipped" ∨ r.status = "auto_subgroup" ∨ r.status = "new_category" ∨
      r.status = "auto_full" ∨ r.status = "partial_auto" ∨ r.status = "unknown" := by
  have h : (classify_products taxonomy products).results
      = products.map (classifyRow taxonomy) := by
    unfold classify_products
    rw [foldl_step_results taxonomy products initialState]
    rfl
  refine ⟨h, by rw [h, List.length_map], ?_⟩
  intro r hr
  rw [h] at hr
  obtain ⟨p, _, rfl⟩ := List.mem_map.mp hr
  exact classifyRow_status_cases taxonomy p

/-- Witness for C1 at a concrete product that reaches the unknown fallback. -/
theorem classify_products_row_preservation_witness :
    (classify_products []
        [{ item_id := "1", item_name := "mystery box", domain := "", dept := "",
           group := "", subgroup := "", supplier_id := "", supplier_name := "" }]).results
      = [classifyRow []
          { item_id := "1", item_name := "mystery box", domain := "", dept := "",
            group := "", subgroup := "", supplier_id := "", supplier_name := "" }] ∧
    ((classifyRow []
        { item_id := "1", item_name := "mystery box", domain := "", dept := "",
          group := "", subgroup := "", supplier_id := "", supplier_name := "" }).status = "skipped" ∨
     (classifyRow []
        { item_id := "1", item_name := "mystery box", domain := "", dept := "",
          group := "", subgroup := "", supplier_id := "", supplier_name := "" }).status = "auto_subgroup" ∨
     (classifyRow []
        { item_id := "1", item_name := "mystery box", domain := "", dept := "",
          group := "", subgroup := "", supplier_id := "", supplier_name := "" }).status = "new_category" ∨
     (classifyRow []
        { item_id := "1", item_name := "mystery box", domain := "", dept := "",
          group := "", subgroup := "", supplier_id := "", supplier_name := "" }).status = "auto_full" ∨
     (classifyRow []
        { item_id := "1", item_name := "mystery box", domain := "", dept := "",
          group := "", subgroup := "", supplier_id := "", supplier_name := "" }).status = "partial_auto" ∨
     (classifyRow []
        { item_id := "1", item_name := "mystery box", domain := "", dept := "",
          group := "", subgroup := "", supplier_id := "", supplier_name := "" }).status = "unknown") := by
  have h := classify_products_row_preservation []
    [{ item_id := "1", item_name := "mystery box", domain := "", dept := "",
       group := "", subgroup := "", supplier_id := "", supplier_name := "" }]
  refine ⟨h.1, h.2.2 _ ?_⟩
  rw [h.1]
  exact List.mem_singleton.mpr rfl

/-- Claim C4: a product whose item_name contains the skip sentinel always
takes the skip branch: the appended result has status "skipped", copies the
input domain/dept/group, replaces the subgroup by the fixed placeholder, the
skipped counter is incremented, and no later cascade step runs (the loop
state changes in no other way). -/
theorem skip_precedence (taxonomy : List TaxonomyEntry) (st : EngineState) (p : Product)
    (h : strHasSub p.item_name skipSentinel = true) :
    step taxonomy st p =
      { results := st.results ++
          [{ item_id := p.item_id, item_name := p.item_name,
             domain := p.domain, dept := p.dept, group := p.group,
             subgroup := "פריט לא קיים - לדילוג",
             supplier_id := p.supplier_id, supplier_name := p.supplier_name,
             status := "skipped" }],
        stats := { st.stats with skipped := st.stats.skipped + 1 },
        new_categories := st.new_categories } := by
  have hne : p.item_name ≠ "" := by
    intro he
    rw [he] at h
    exact absurd h (by decide)
  have hb : (p.item_name != "") = true := by simp [hne]
  simp [step, classifyRow, hb, h, bump]

/-- Witness for C4: the skip sentinel wins even though dept and group are
present and would resolve through the taxonomy. -/
theorem skip_precedence_witness :
    step [⟨"", "Dom", "", "D", "", "G", "", "S"⟩] initialState
      { item_id := "7", item_name := "פריט חדש 123", domain := "DomX", dept := "D",
        group := "G", subgroup := "", supplier_id := "5", supplier_name := "Sup" } =
      { results := [{ item_id := "7", item_name := "פריט חדש 123",
                      domain := "DomX", dept := "D", group := "G",
                      subgroup := "פריט לא קיים - לדילוג",
                      supplier_id := "5", supplier_name := "Sup", status := "skipped" }],
        stats := { auto_full := 0, auto_subgroup := 0, new_category := 0,
                   skipped := 1, unknown := 0 },
        new_categories := [] } ∧
    find_subgroup "D" "G" "פריט חדש 123" [⟨"", "Dom", "", "D", "", "G", "", "S"⟩] = some "S" := by
  constructor
  · exact skip_precedence [⟨"", "Dom", "", "D", "", "G", "", "S"⟩] initialState
      { item_id := "7", item_name := "פריט חדש 123", domain := "DomX", dept := "D",
        group := "G", subgroup := "", supplier_id := "5", supplier_name := "Sup" }
      (by decide)
  · rfl

/-- Claim C10: every per-row result carries the product's item_id, item_name,
supplier_id and supplier_name unchanged from the input row; the cascade only
ever rewrites domain, dept, group, subgroup and status. -/
theorem classifyRow_frame (taxonomy : List TaxonomyEntry) (p : Product) :
    (classifyRow taxonomy p).item_id = p.item_id ∧
    (classifyRow taxonomy p).item_name = p.item_name ∧
    (classifyRow taxonomy p).supplier_id = p.supplier_id ∧
    (classifyRow taxonomy p).supplier_name = p.supplier_name := by
  unfold classifyRow
  split
  · exact ⟨rfl, rfl, rfl, rfl⟩
  · split
    · exact ⟨rfl, rfl, rfl, rfl⟩
    · split
      · exact ⟨rfl, rfl, rfl, rfl⟩
      · split
        · exact ⟨rfl, rfl, rfl, rfl⟩
        · exact ⟨rfl, rfl, rfl, rfl⟩

/-- Shared lemma: a findSome? whose function guards a projection by a boolean
test is the projection of find?. -/
lemma findSome?_guard_eq_find? {α β : Type} (q : α → Bool) (f : α → β) :
    ∀ l : List α,
      List.findSome? (fun r => if q r then some (f r) else none) l
        = Option.map f (List.find? q l) := by
  intro l
  induction l with
  | nil => rfl
  | cons a l ih =>
    cases hq : q a
    · simp [List.findSome?_cons, hq, ih]
    · simp [List.findSome?_cons, hq]

/-- Claim C5: match_by_keyword returns the category of the first rule in
table order having some keyword that is a substring of the lower-cased name,
and none when no rule's keyword matches; first rule wins and the result is a
deterministic function of RULES and the name. -/
theorem match_by_keyword_first_rule (name : String) :
    match_by_keyword name =
      Option.map (fun r => r.2)
        (RULES.find? fun r => r.1.any fun kw => strHasSub (pyLower name) (pyLower kw)) := by
  have hl : (if name != "" then pyLower name else "") = pyLower name := by
    by_cases hn : name = ""
    · subst hn; rfl
    · simp [hn]
  simp only [match_by_keyword]
  rw [hl]
  exact findSome?_guard_eq_find?
    (fun r => r.1.any fun kw => strHasSub (pyLower name) (pyLower kw))
    (fun r => r.2) RULES

/-- Claim C6: find_subgroup returns none on an empty candidate list; the
single candidate's subgroup regardless of the item name; and with several
candidates the subgroup of the first candidate whose lowered subgroup name
has a whitespace token longer than 2 characters occurring in the lowered
item name, defaulting to the first candidate when no candidate passes. -/
theorem find_subgroup_resolution (d g n : String) (tax : List TaxonomyEntry) :
    (subgroup_candidates d g tax = [] → find_subgroup d g n tax = none) ∧
    (∀ m, subgroup_candidates d g tax = [m] →
      find_subgroup d g n tax = some m.sub_name) ∧
    (∀ m0 m1 ms, subgroup_candidates d g tax = m0 :: m1 :: ms →
      find_subgroup d g n tax =
        some ((List.find? (tokenTest n) (m0 :: m1 :: ms)).getD m0).sub_name) := by
  refine ⟨?_, ?_, ?_⟩
  · intro h
    simp only [find_subgroup]
    rw [h]
  · intro m h
    simp only [find_subgroup]
    rw [h]
  · intro m0 m1 ms h
    simp only [find_subgroup]
    rw [h]
    cases hf : List.find? (tokenTest n) (m0 :: m1 :: ms) with
    | none => simp [hf]
    | some m => simp [hf]

/-- Witness for C6: the multi-candidate token tie-break and the
single-candidate case at concrete taxonomies. -/
theorem find_subgroup_resolution_witness :
    find_subgroup "Fruit" "Apples" "organic green fruit"
        [⟨"", "D", "", "Fruit", "", "Apples", "", "Red Apples"⟩,
         ⟨"", "D", "", "Fruit", "", "Apples", "", "Green Apples"⟩] = some "Green Apples" ∧
    find_subgroup "Fruit" "Apples" "anything"
        [⟨"", "D", "", "Fruit", "", "Apples", "", "Ripe Fruit"⟩] = some "Ripe Fruit" := by
  constructor
  · rw [(find_subgroup_resolution "Fruit" "Apples" "organic green fruit"
        [⟨"", "D", "", "Fruit", "", "Apples", "", "Red Apples"⟩,
         ⟨"", "D", "", "Fruit", "", "Apples", "", "Green Apples"⟩]).2.2
        ⟨"", "D", "", "Fruit", "", "Apples", "", "Red Apples"⟩
        ⟨"", "D", "", "Fruit", "", "Apples", "", "Green Apples"⟩ [] rfl]
    rfl
  · exact (find_subgroup_resolution "Fruit" "Apples" "anything"
        [⟨"", "D", "", "Fruit", "", "Apples", "", "Ripe Fruit"⟩]).2.1
        ⟨"", "D", "", "Fruit", "", "Apples", "", "Ripe Fruit"⟩ rfl

/-- Claim C7: a product that is not skipped, not resolved through subgroup
resolution (here: group absent), and matched by no keyword rule, with dept
present and some taxonomy entry under that dept bearing a subgroup, gets
status "partial_auto" with domain = input domain or the first such entry's
domain, dept = input dept, group = the entry's group, and subgroup = the
entry's subgroup with the review suffix appended. -/
theorem dept_only_fallback (taxonomy : List TaxonomyEntry) (p : Product)
    (t : TaxonomyEntry) (ts : List TaxonomyEntry)
    (hskip : strHasSub p.item_name skipSentinel = false)
    (hkw : match_by_keyword p.item_name = none)
    (hdept : p.dept ≠ "") (hgrp : p.group = "")
    (hmatch : dept_matches p.dept taxonomy = t :: ts) :
    classifyRow taxonomy p =
      { item_id := p.item_id, item_name := p.item_name,
        domain := if p.domain != "" then p.domain else t.domain_name,
        dept := p.dept, group := t.grp_name,
        subgroup := t.sub_name ++ " *לבדיקה*",
        supplier_id := p.supplier_id, supplier_name := p.supplier_name,
        status := "partial_auto" } := by
  simp [classifyRow, hskip, hkw, hgrp, hdept, hmatch]

/-- Witness for C7 at a concrete dept-only product and one-entry taxonomy. -/
theorem dept_only_fallback_witness :
    classifyRow [⟨"", "DomB", "", "Bakery", "", "BreadGrp", "", "Bread"⟩]
      { item_id := "9", item_name := "plain loaf", domain := "", dept := "Bakery",
        group := "", subgroup := "", supplier_id := "", supplier_name := "" } =
      { item_id := "9", item_name := "plain loaf", domain := "DomB", dept := "Bakery",
        group := "BreadGrp", subgroup := "Bread *לבדיקה*",
        supplier_id := "", supplier_name := "", status := "partial_auto" } := by
  exact dept_only_fallback [⟨"", "DomB", "", "Bakery", "", "BreadGrp", "", "Bread"⟩]
    { item_id := "9", item_name := "plain loaf", domain := "", dept := "Bakery",
      group := "", subgroup := "", supplier_id := "", supplier_name := "" }
    ⟨"", "DomB", "", "Bakery", "", "BreadGrp", "", "Bread"⟩ []
    (by decide) (by decide) (by decide) rfl rfl

/-- Claim C9 (amended): a product whose name does not contain the skip
sentinel, with no dept, no group, and a name matching no rule keyword, never
fails: its status is "unknown" and each absent field is replaced by its
sentinel placeholder. -/
theorem unknown_fallback (taxonomy : List TaxonomyEntry) (p : Product)
    (hskip : strHasSub p.item_name skipSentinel = false)
    (hdept : p.dept = "") (hgrp : p.group = "")
    (hkw : match_by_keyword p.item_name = none) :
    classifyRow taxonomy p =
      { item_id := p.item_id, item_name := p.item_name,
        domain := if p.domain != "" then p.domain else "לא ידוע",
        dept := "לבדיקה", group := "לבדיקה",
        subgroup := "לבדיקה ידנית",
        supplier_id := p.supplier_id, supplier_name := p.supplier_name,
        status := "unknown" } := by
  simp [classifyRow, hskip, hkw, hdept, hgrp]

/-- Witness for the amended C9 at a concrete product with every optional
field absent. -/
theorem unknown_fallback_witness :
    classifyRow []
      { item_id := "2", item_name := "mystery item", domain := "", dept := "",
        group := "", subgroup := "", supplier_id := "", supplier_name := "" } =
      { item_id := "2", item_name := "mystery item", domain := "לא ידוע",
        dept := "לבדיקה", group := "לבדיקה", subgroup := "לבדיקה ידנית",
        supplier_id := "", supplier_name := "", status := "unknown" } := by
  exact unknown_fallback []
    { item_id := "2", item_name := "mystery item", domain := "", dept := "",
      group := "", subgroup := "", supplier_id := "", supplier_name := "" }
    (by decide) rfl rfl (by decide)

/-- Counterexample to C9 as stated: a product whose name is exactly the skip
sentinel has no dept, no group and matches no rule keyword, yet its status is
"skipped", not "unknown" (the skip check precedes the unknown fallback). -/
theorem unknown_fallback_cex :
    match_by_keyword "פריט חדש" = none ∧
    (classifyRow []
        { item_id := "3", item_name := "פריט חדש", domain := "", dept := "",
          group := "", subgroup := "", supplier_id := "", supplier_name := "" }).status
      = "skipped" ∧
    ¬ (classifyRow []
        { item_id := "3", item_name := "פריט חדש", domain := "", dept := "",
          group := "", subgroup := "", supplier_id := "", supplier_name := "" }).status
      = "unknown" := by
  exact ⟨by decide, rfl, by decide⟩

/-- Claim C2 is violated by the code (code bug): a lone product classified
"partial_auto" is counted under the auto_subgroup counter, and the stats
mapping holds only five counters, none keyed by "partial_auto" (source lines
278-279 and 341). -/
theorem stats_partial_auto_miscount :
    ((classify_products [⟨"", "DomB", "", "Bakery", "", "BreadGrp", "", "Bread"⟩]
        [{ item_id := "9", item_name := "plain loaf", domain := "", dept := "Bakery",
           group := "", subgroup := "", supplier_id := "", supplier_name := "" }]).results.map
      fun r => r.status) = ["partial_auto"] ∧
    (classify_products [⟨"", "DomB", "", "Bakery", "", "BreadGrp", "", "Bread"⟩]
        [{ item_id := "9", item_name := "plain loaf", domain := "", dept := "Bakery",
           group := "", subgroup := "", supplier_id := "", supplier_name := "" }]).stats =
      { auto_full := 0, auto_subgroup := 1, new_category := 0, skipped := 0,
        unknown := 0 } := by
  exact ⟨rfl, rfl⟩

/-- Counterexample to C3 as stated: subgroup resolution and the dept-only
fallback compare the taxonomy dept/group names (trimmed) against the
product's values verbatim, so a product dept differing only in letter case
or surrounding whitespace finds no candidates. -/
theorem case_sensitive_lookup_cex :
    find_subgroup "NF" "G" "x" [⟨"", "Dom", "", "NF", "", "G", "", "S"⟩] = some "S" ∧
    find_subgroup "nf" "G" "x" [⟨"", "Dom", "", "NF", "", "G", "", "S"⟩] = none ∧
    find_subgroup "NF " "G" "x" [⟨"", "Dom", "", "NF", "", "G", "", "S"⟩] = none ∧
    dept_matches "NF" [⟨"", "Dom", "", "NF", "", "G", "", "S"⟩] =
      [⟨"", "Dom", "", "NF", "", "G", "", "S"⟩] ∧
    dept_matches "nf" [⟨"", "Dom", "", "NF", "", "G", "", "S"⟩] = [] := by
  exact ⟨rfl, rfl, rfl, rfl, rfl⟩

/-- Shared lemma: unpack trimEquivB into its three component equalities. -/
lemma trimEquivB_spec {a b : TaxonomyEntry} (h : trimEquivB a b = true) :
    pyStrip a.dept_name = pyStrip b.dept_name ∧ pyStrip a.grp_name = pyStrip b.grp_name ∧
    a.sub_name = b.sub_name := by
  simp only [trimEquivB, Bool.and_eq_true, beq_iff_eq] at h
  exact ⟨h.1.1, h.1.2, h.2⟩

/-- Shared lemma: filtering by a predicate constant on trim-equivalent rows
preserves the pointwise relation. -/
lemma listRelB_filter (p : TaxonomyEntry → Bool)
    (hp : ∀ a b, trimEquivB a b = true → p a = p b) :
    ∀ l l', listRelB trimEquivB l l' = true →
      listRelB trimEquivB (l.filter p) (l'.filter p) = true := by
  intro l
  induction l with
  | nil =>
    intro l' h
    cases l' with
    | nil => simpa using h
    | cons b bs => simp [listRelB] at h
  | cons a as ih =>
    intro l' h
    cases l' with
    | nil => simp [listRelB] at h
    | cons b bs =>
      simp only [listRelB, Bool.and_eq_true] at h
      obtain ⟨h1, h2⟩ := h
      rw [List.filter_cons, List.filter_cons, hp a b h1]
      cases hb : p b
      · exact ih bs h2
      · simp only [if_true]
        simp only [listRelB, Bool.and_eq_true]
        exact ⟨h1, ih bs h2⟩

/-- Shared lemma: pointwise trim-equivalent rows have equal subgroup-name
sequences. -/
lemma map_sub_name_of_listRelB :
    ∀ l l', listRelB trimEquivB l l' = true →
      l.map TaxonomyEntry.sub_name = l'.map TaxonomyEntry.sub_name := by
  intro l
  induction l with
  | nil =>
    intro l' h
    cases l' with
    | nil => rfl
    | cons b bs => simp [listRelB] at h
  | cons a as ih =>
    intro l' h
    cases l' with
    | nil => simp [listRelB] at h
    | cons b bs =>
      simp only [listRelB, Bool.and_eq_true] at h
      obtain ⟨h1, h2⟩ := h
      simp only [List.map_cons, (trimEquivB_spec h1).2.2, ih bs h2]

/-- Shared lemma: the token-test search returns entries with the same
subgroup name on trim-equivalent candidate lists. -/
lemma find?_tokenTest_of_listRelB (n : String) :
    ∀ l l', listRelB trimEquivB l l' = true →
      Option.map TaxonomyEntry.sub_name (l.find? (tokenTest n)) =
        Option.map TaxonomyEntry.sub_name (l'.find? (tokenTest n)) := by
  intro l
  induction l with
  | nil =>
    intro l' h
    cases l' with
    | nil => rfl
    | cons b bs => simp [listRelB] at h
  | cons a as ih =>
    intro l' h
    cases l' with
    | nil => simp [listRelB] at h
    | cons b bs =>
      simp only [listRelB, Bool.and_eq_true] at h
      obtain ⟨h1, h2⟩ := h
      have hs := (trimEquivB_spec h1).2.2
      have ht : tokenTest n a = tokenTest n b := by simp [tokenTest, hs]
      cases hb : tokenTest n b
      · rw [List.find?_cons_of_neg _ (by simp [ht, hb]),
            List.find?_cons_of_neg _ (by simp [hb])]
        exact ih bs h2
      · rw [List.find?_cons_of_pos _ (by simp [ht, hb]),
            List.find?_cons_of_pos _ (by simp [hb])]
        simp [hs]

/-- Claim C3 (amended): candidate lookup trims only the taxonomy-side names;
replacing the taxonomy by any row-wise trim-equivalent taxonomy (same trimmed
dept/group names, same subgroup names) changes neither the find_subgroup
outcome nor (up to trim-equivalence) the dept-only candidate list.  The
product-side dept/group are compared verbatim and case-sensitively, as the
counterexample shows. -/
theorem lookup_trim_semantics (d g n : String) (tax tax' : List TaxonomyEntry)
    (h : listRelB trimEquivB tax tax' = true) :
    find_subgroup d g n tax = find_subgroup d g n tax' ∧
    listRelB trimEquivB (dept_matches d tax) (dept_matches d tax') = true := by
  have hcand : listRelB trimEquivB (subgroup_candidates d g tax)
      (subgroup_candidates d g tax') = true := by
    apply listRelB_filter _ _ tax tax' h
    intro a b hab
    obtain ⟨hd, hg, hs⟩ := trimEquivB_spec hab
    simp [hd, hg, hs]
  constructor
  · have hmap := map_sub_name_of_listRelB _ _ hcand
    have hfind := find?_tokenTest_of_listRelB n _ _ hcand
    simp only [find_subgroup]
    rcases hx : subgroup_candidates d g tax with _ | ⟨m0, _ | ⟨m1, ms⟩⟩
    · rcases hx' : subgroup_candidates d g tax' with _ | ⟨n0, _ | ⟨n1, ns⟩⟩
      · rfl
      · rw [hx, hx'] at hcand
        simp [listRelB] at hcand
      · rw [hx, hx'] at hcand
        simp [listRelB] at hcand
    · rcases hx' : subgroup_candidates d g tax' with _ | ⟨n0, _ | ⟨n1, ns⟩⟩
      · rw [hx, hx'] at hcand
        simp [listRelB] at hcand
      · rw [hx, hx'] at hmap
        simp only [List.map_cons, List.map_nil, List.cons.injEq, and_true] at hmap
        exact congrArg some hmap
      · rw [hx, hx'] at hcand
        simp [listRelB] at hcand
    · rcases hx' : subgroup_candidates d g tax' with _ | ⟨n0, _ | ⟨n1, ns⟩⟩
      · rw [hx, hx'] at hcand
        simp [listRelB] at hcand
      · rw [hx, hx'] at hcand
        simp [listRelB] at hcand
      · rw [hx, hx'] at hmap hfind
        cases hfa : List.find? (tokenTest n) (m0 :: m1 :: ms) with
        | none =>
          cases hfb : List.find? (tokenTest n) (n0 :: n1 :: ns) with
          | none =>
            simp only [List.map_cons, List.cons.injEq] at hmap
            simp [hfa, hfb, hmap.1]
          | some m' =>
            rw [hfa, hfb] at hfind
            simp at hfind
        | some m =>
          cases hfb : List.find? (tokenTest n) (n0 :: n1 :: ns) with
          | none =>
            rw [hfa, hfb] at hfind
            simp at hfind
          | some m' =>
            rw [hfa, hfb] at hfind
            simp at hfind
            simp [hfa, hfb, hfind]
  · apply listRelB_filter _ _ tax tax' h
    intro a b hab
    obtain ⟨hd, _, hs⟩ := trimEquivB_spec hab
    simp [hd, hs]

/-- Witness for the amended C3: padding the taxonomy dept/group names with
whitespace changes nothing. -/
theorem lookup_trim_semantics_witness :
    find_subgroup "NF" "G" "x" [⟨"", "Dom", "", "NF", "", "G", "", "S"⟩] =
      find_subgroup "NF" "G" "x" [⟨"", "Dom", "", " NF ", "", "G ", "", "S"⟩] ∧
    listRelB trimEquivB
      (dept_matches "NF" [⟨"", "Dom", "", "NF", "", "G", "", "S"⟩])
      (dept_matches "NF" [⟨"", "Dom", "", " NF ", "", "G ", "", "S"⟩]) = true ∧
    find_subgroup "NF" "G" "x" [⟨"", "Dom", "", " NF ", "", "G ", "", "S"⟩] = some "S" := by
  have h := lookup_trim_semantics "NF" "G" "x"
    [⟨"", "Dom", "", "NF", "", "G", "", "S"⟩]
    [⟨"", "Dom", "", " NF ", "", "G ", "", "S"⟩] (by decide)
  exact ⟨h.1, h.2, rfl⟩

/-- Shared lemma: set insertion preserves freedom from duplicates. -/
lemma setAdd_nodup {s : List Cat4} {x : Cat4} (h : s.Nodup) : (setAdd s x).Nodup := by
  unfold setAdd
  split
  · exact h
  · next hx => exact List.nodup_cons.mpr ⟨hx, h⟩

/-- Shared lemma: the inserted element is a member after set insertion. -/
lemma mem_setAdd_self (s : List Cat4) (x : Cat4) : x ∈ setAdd s x := by
  unfold setAdd
  split
  · next hx => exact hx
  · exact List.mem_cons_self x s

/-- Shared lemma: set insertion keeps existing members. -/
lemma mem_setAdd_of_mem {s : List Cat4} {x y : Cat4} (h : y ∈ s) : y ∈ setAdd s x := by
  unfold setAdd
  split
  · exact h
  · exact List.mem_cons_of_mem x h

/-- Shared lemma: one loop iteration preserves a duplicate-free set. -/
lemma step_newcats_nodup (tax : List TaxonomyEntry) (st : EngineState) (p : Product)
    (h : st.new_categories.Nodup) : (step tax st p).new_categories.Nodup := by
  simp only [step]
  split
  · exact setAdd_nodup h
  · exact h

/-- Shared lemma: one loop iteration keeps existing set members. -/
lemma step_newcats_mem (tax : List TaxonomyEntry) (st : EngineState) (p : Product)
    {y : Cat4} (h : y ∈ st.new_categories) : y ∈ (step tax st p).new_categories := by
  simp only [step]
  split
  · exact mem_setAdd_of_mem h
  · exact h

/-- Shared lemma: the whole loop preserves a duplicate-free set. -/
lemma foldl_newcats_nodup (tax : List TaxonomyEntry) :
    ∀ (ps : List Product) (st : EngineState), st.new_categories.Nodup →
      ((ps.foldl (step tax) st).new_categories).Nodup := by
  intro ps
  induction ps with
  | nil => intro st h; exact h
  | cons q qs ih => intro st h; exact ih (step tax st q) (step_newcats_nodup tax st q h)

/-- Shared lemma: the whole loop keeps existing set members. -/
lemma foldl_newcats_mem (tax : List TaxonomyEntry) :
    ∀ (ps : List Product) (st : EngineState) (y : Cat4), y ∈ st.new_categories →
      y ∈ ((ps.foldl (step tax) st).new_categories) := by
  intro ps
  induction ps with
  | nil => intro st y h; exact h
  | cons q qs ih => intro st y h; exact ih (step tax st q) y (step_newcats_mem tax st q h)

/-- Shared lemma: a row that reaches the keyword branch with a marker-bearing
tuple produces exactly the new-category result built from that tuple. -/
lemma classifyRow_keyword_new (tax : List TaxonomyEntry) (p : Product)
    (c1 c2 c3 c4 : String)
    (hskip : strHasSub p.item_name skipSentinel = false)
    (hsub : (if p.dept != "" && p.group != "" then
               find_subgroup p.dept p.group p.item_name tax else none) = none)
    (hkw : match_by_keyword p.item_name = some (c1, c2, c3, c4))
    (hnew : is_new (c1, c2, c3, c4) = true) :
    classifyRow tax p =
      { item_id := p.item_id, item_name := p.item_name,
        domain := c1, dept := c2, group := c3, subgroup := c4,
        supplier_id := p.supplier_id, supplier_name := p.supplier_name,
        status := "new_category" } := by
  have h1 : (p.item_name != "" && strHasSub p.item_name skipSentinel) = false := by
    rw [hskip, Bool.and_false]
  simp only [classifyRow, h1, hsub, hkw, hnew]
  rfl

/-- Shared lemma: if some processed row classifies as new_category then its
resolved tuple is in the final set. -/
lemma mem_newcats_of_trigger (tax : List TaxonomyEntry) :
    ∀ (ps : List Product) (st : EngineState) (p : Product) (c : Cat4),
      p ∈ ps →
      (classifyRow tax p).status = "new_category" →
      ((classifyRow tax p).domain, (classifyRow tax p).dept,
        (classifyRow tax p).group, (classifyRow tax p).subgroup) = c →
      c ∈ ((ps.foldl (step tax) st).new_categories) := by
  intro ps
  induction ps with
  | nil => intro st p c hmem; exact absurd hmem (List.not_mem_nil p)
  | cons q qs ih =>
    intro st p c hmem hrow hc
    rcases List.mem_cons.mp hmem with rfl | hmem'
    · rw [List.foldl_cons]
      apply foldl_newcats_mem
      simp only [step]
      rw [hrow, hc]
      simp only [beq_self_eq_true, if_true]
      exact mem_setAdd_self _ _
    · exact ih (step tax st q) p c hmem' hrow hc

/-- Shared lemma: the tuple comparison is transitive. -/
lemma cat4Le_trans : ∀ a b c : Cat4, cat4Le a b → cat4Le b c → cat4Le a c := by
  intro a b c hab hbc
  simp only [cat4Le, decide_eq_true_eq] at hab hbc ⊢
  exact le_trans hab hbc

/-- Shared lemma: the tuple comparison is total. -/
lemma cat4Le_total : ∀ a b : Cat4, cat4Le a b || cat4Le b a := by
  intro a b
  rcases le_total (cat4Key a) (cat4Key b) with h | h <;> simp [cat4Le, h]

/-- Claim C8: a product that reaches the keyword branch via a rule whose
dept/group/subgroup carry the new-category marker classifies as
"new_category" and its tuple enters the aggregated set; the aggregated set
holds each tuple at most once (inserting an already present tuple leaves one
entry), and the reported set is sorted by the lexicographic tuple order and
has exactly the members of the aggregated set. -/
theorem new_category_dedup_sorted (tax : List TaxonomyEntry) (ps : List Product) :
    (∀ (p : Product) (c1 c2 c3 c4 : String),
        strHasSub p.item_name skipSentinel = false →
        (if p.dept != "" && p.group != "" then
           find_subgroup p.dept p.group p.item_name tax else none) = none →
        match_by_keyword p.item_name = some (c1, c2, c3, c4) →
        is_new (c1, c2, c3, c4) = true →
        (classifyRow tax p).status = "new_category" ∧
        (p ∈ ps → (c1, c2, c3, c4) ∈ (classify_products tax ps).new_categories)) ∧
    (classify_products tax ps).new_categories.Nodup ∧
    List.Pairwise (fun a b => cat4Le a b = true)
      (sorted_new_categories (classify_products tax ps).new_categories) ∧
    (∀ c : Cat4, c ∈ sorted_new_categories (classify_products tax ps).new_categories ↔
        c ∈ (classify_products tax ps).new_categories) := by
  refine ⟨?_, ?_, ?_, ?_⟩
  · intro p c1 c2 c3 c4 hskip hsub hkw hnew
    have hrow := classifyRow_keyword_new tax p c1 c2 c3 c4 hskip hsub hkw hnew
    refine ⟨by rw [hrow], ?_⟩
    intro hmem
    exact mem_newcats_of_trigger tax ps initialState p (c1, c2, c3, c4) hmem
      (by rw [hrow]) (by rw [hrow])
  · exact foldl_newcats_nodup tax ps initialState (by simp [initialState])
  · simp only [sorted_new_categories]
    exact List.sorted_mergeSort cat4Le_trans cat4Le_total _
  · intro c
    simp only [sorted_new_categories]
    exact List.mem_mergeSort

/-- Witness for C8: two distinct peanut products both hit the same
marker-bearing rule; both classify as new_category, yet the aggregated set
holds the tuple exactly once. -/
theorem new_category_dedup_sorted_witness :
    (classifyRow []
        { item_id := "1", item_name := "בוטנים א", domain := "", dept := "",
          group := "", subgroup := "", supplier_id := "", supplier_name := "" }).status
      = "new_category" ∧
    (classifyRow []
        { item_id := "2", item_name := "בוטן ב", domain := "", dept := "",
          group := "", subgroup := "", supplier_id := "", supplier_name := "" }).status
      = "new_category" ∧
    ("פירות וירקות", "פיצוחים", "בוטנים *חדש*", "בוטנים *חדש*") ∈
      (classify_products []
        [{ item_id := "1", item_name := "בוטנים א", domain := "", dept := "",
           group := "", subgroup := "", supplier_id := "", supplier_name := "" },
         { item_id := "2", item_name := "בוטן ב", domain := "", dept := "",
           group := "", subgroup := "", supplier_id := "", supplier_name := "" }]).new_categories ∧
    (classify_products []
        [{ item_id := "1", item_name := "בוטנים א", domain := "", dept := "",
           group := "", subgroup := "", supplier_id := "", supplier_name := "" },
         { item_id := "2", item_name := "בוטן ב", domain := "", dept := "",
           group := "", subgroup := "", supplier_id := "", supplier_name := "" }]).new_categories.Nodup ∧
    (classify_products []
        [{ item_id := "1", item_name := "בוטנים א", domain := "", dept := "",
           group := "", subgroup := "", supplier_id := "", supplier_name := "" },
         { item_id := "2", item_name := "בוטן ב", domain := "", dept := "",
           group := "", subgroup := "", supplier_id := "", supplier_name := "" }]).new_categories
      = [("פירות וירקות", "פיצוחים", "בוטנים *חדש*", "בוטנים *חדש*")] := by
  have h := new_category_dedup_sorted []
    [{ item_id := "1", item_name := "בוטנים א", domain := "", dept := "",
       group := "", subgroup := "", supplier_id := "", supplier_name := "" },
     { item_id := "2", item_name := "בוטן ב", domain := "", dept := "",
       group := "", subgroup := "", supplier_id := "", supplier_name := "" }]
  refine ⟨?_, ?_, ?_, h.2.1, rfl⟩
  · exact (h.1
      { item_id := "1", item_name := "בוטנים א", domain := "", dept := "",
        group := "", subgroup := "", supplier_id := "", supplier_name := "" }
      "פירות וירקות" "פיצוחים" "בוטנים *חדש*" "בוטנים *חדש*"
      (by decide) (by decide) (by decide) (by decide)).1
  · exact (h.1
      { item_id := "2", item_name := "בוטן ב", domain := "", dept := "",
        group := "", subgroup := "", supplier_id := "", supplier_name := "" }
      "פירות וירקות" "פיצוחים" "בוטנים *חדש*" "בוטנים *חדש*"
      (by decide) (by decide) (by decide) (by decide)).1
  · exact (h.1
      { item_id := "1", item_name := "בוטנים א", domain := "", dept := "",
        group := "", subgroup := "", supplier_id := "", supplier_name := "" }
      "פירות וירקות" "פיצוחים" "בוטנים *חדש*" "בוטנים *חדש*"
      (by decide) (by decide) (by decide) (by decide)).2
      (List.mem_cons_self _ _)

end Categorize
